import Mathlib

/-!
Verification of the Vérité Sauvage authenticity portal against its design
spec.  The development shallowly embeds the relevant program parts:

* the Keccak-256 hash and the tightly packed Solidity ABI encoding used by
  `web3.utils.soliditySha3` (the fingerprint deriver's hash primitive);
* the two product-registration flows (`src/unnamed/part_005` and
  `src/frontend/src/RegisterPanel.tsx`);
* the two contract-artifact loaders (`src/unnamed/part_004` and
  `src/frontend/src/useContract.ts`);
* the Solidity `FakeProdDetector` contract's storage semantics
  (`src/solidity/scripts/fund.js`, inlined contract source);
* the customer/admin verification entry points (`src/unnamed/part_003`,
  `src/unnamed/part_006`);
* the backend short-code registry and verification engine, which are not
  part of the delivered sources and are therefore modelled from the spec.

All definitions are executable; machine words are `Nat` reduced mod `2^64`
or `2^256` where the source overflows.
-/

set_option maxRecDepth 100000

/-! ## Keccak-256 (the hash behind `web3.utils.soliditySha3`) -/

/-- 64-bit left rotation on `Nat`, truncated to 64 bits. -/
def rotl64 (x n : Nat) : Nat :=
  ((x <<< n) ||| (x >>> (64 - n))) &&& (2 ^ 64 - 1)

/-- The 24 Keccak-f[1600] round constants. -/
def keccakRC : List Nat :=
  [0x0000000000000001, 0x0000000000008082, 0x800000000000808a,
   0x8000000080008000, 0x000000000000808b, 0x0000000080000001,
   0x8000000080008081, 0x8000000000008009, 0x000000000000008a,
   0x0000000000000088, 0x0000000080008009, 0x000000008000000a,
   0x000000008000808b, 0x800000000000008b, 0x8000000000008089,
   0x8000000000008003, 0x8000000000008002, 0x8000000000000080,
   0x000000000000800a, 0x800000008000000a, 0x8000000080008081,
   0x8000000000008080, 0x0000000080000001, 0x8000000080008008]

/-- Combined ρ/π step table: entry `j` is `(src, rot)` meaning the lane at
flat index `j = x + 5*y` after π is the lane `src` before, rotated by `rot`. -/
def rhoPiTable : List (Nat × Nat) :=
  [(0, 0), (6, 44), (12, 43), (18, 21), (24, 14),
   (3, 28), (9, 20), (10, 3), (16, 45), (22, 61),
   (1, 1), (7, 6), (13, 25), (19, 8), (20, 18),
   (4, 27), (5, 36), (11, 10), (17, 15), (23, 56),
   (2, 62), (8, 55), (14, 39), (15, 41), (21, 2)]

/-- One Keccak-f[1600] round (θ, ρ, π, χ, ι) on a 25-lane state
(flat index `x + 5*y`, lanes little-endian 64-bit values). -/
def keccakRound (A : List Nat) (rc : Nat) : List Nat :=
  let get := fun (l : List Nat) (i : Nat) => l.getD i 0
  let C := (List.range 5).map fun x =>
    get A x ^^^ get A (x + 5) ^^^ get A (x + 10) ^^^ get A (x + 15) ^^^ get A (x + 20)
  let D := (List.range 5).map fun x =>
    get C ((x + 4) % 5) ^^^ rotl64 (get C ((x + 1) % 5)) 1
  let th := (List.range 25).map fun i => get A i ^^^ get D (i % 5)
  let B := rhoPiTable.map fun p => rotl64 (get th p.1) p.2
  let ch := (List.range 25).map fun j =>
    let x := j % 5
    let y := j - x
    get B j ^^^ ((get B ((x + 1) % 5 + y) ^^^ (2 ^ 64 - 1)) &&& get B ((x + 2) % 5 + y))
  match ch with
  | [] => []
  | a0 :: rest => (a0 ^^^ rc) :: rest

/-- The full Keccak-f[1600] permutation: 24 rounds. -/
def keccakF (A : List Nat) : List Nat :=
  keccakRC.foldl keccakRound A

/-- Keccak multi-rate padding `pad10*1` for rate 136 bytes (Keccak-256 as
used by Ethereum: domain byte 0x01, final bit 0x80). -/
def keccakPad (msg : List Nat) : List Nat :=
  let padLen := 136 - msg.length % 136
  if padLen = 1 then msg ++ [0x81]
  else msg ++ [0x01] ++ List.replicate (padLen - 2) 0 ++ [0x80]

/-- Reassemble 8 bytes (little-endian) into a 64-bit lane. -/
def bytesToLane (bs : List Nat) : Nat :=
  bs.foldr (fun b acc => acc * 256 + b) 0

/-- Split a 64-bit lane into 8 little-endian bytes. -/
def laneToBytes (n : Nat) : List Nat :=
  (List.range 8).map fun i => (n >>> (8 * i)) &&& 255

/-- XOR one 136-byte block into the first 17 lanes of the state and permute. -/
def absorbBlock (st : List Nat) (blk : List Nat) : List Nat :=
  let bl := (List.range 17).map fun i => bytesToLane ((blk.drop (8 * i)).take 8)
  keccakF ((List.range 25).map fun i => st.getD i 0 ^^^ bl.getD i 0)

/-- Keccak-256 of a byte sequence (bytes are `Nat` values < 256); returns
the 32-byte digest. -/
def keccak256 (msg : List Nat) : List Nat :=
  let padded := keccakPad msg
  let blocks := (List.range (padded.length / 136)).map fun i =>
    (padded.drop (136 * i)).take 136
  let final := blocks.foldl absorbBlock (List.replicate 25 0)
  ((List.range 4).map fun i => laneToBytes (final.getD i 0)).flatten

/-- Known-answer test: `keccak256("")`; pins the embedding of the hash to
the function Ethereum (and hence `web3.utils.soliditySha3`) actually uses. -/
theorem keccak256_empty_kat :
    keccak256 [] =
      [0xc5, 0xd2, 0x46, 0x01, 0x86, 0xf7, 0x23, 0x3c,
       0x92, 0x7e, 0x7d, 0xb2, 0xdc, 0xc7, 0x03, 0xc0,
       0xe5, 0x00, 0xb6, 0x53, 0xca, 0x82, 0x27, 0x3b,
       0x7b, 0xfa, 0xd8, 0x04, 0x5d, 0x85, 0xa4, 0x70] := by
  decide

/-- Known-answer test: `keccak256("abc")` (bytes 0x61 0x62 0x63). -/
theorem keccak256_abc_kat :
    keccak256 [0x61, 0x62, 0x63] =
      [0x4e, 0x03, 0x65, 0x7a, 0xea, 0x45, 0xa9, 0x4f,
       0xc7, 0xd4, 0x7b, 0xa8, 0x26, 0xc8, 0xd6, 0x67,
       0xc0, 0xd1, 0xe6, 0xe3, 0x3a, 0x64, 0xa0, 0x36,
       0xec, 0x44, 0xf5, 0x8f, 0xa1, 0x2d, 0x6c, 0x45] := by
  decide

/-! ## Solidity tight packing (`web3.utils.soliditySha3`) -/

/-- UTF-8 encoding of a single character (standard 1–4 byte scheme; this is
what JS strings become when packed as Solidity `string`). -/
def charUtf8 (c : Char) : List Nat :=
  let n := c.toNat
  if n < 0x80 then [n]
  else if n < 0x800 then
    [0xC0 ||| (n >>> 6), 0x80 ||| (n &&& 0x3F)]
  else if n < 0x10000 then
    [0xE0 ||| (n >>> 12), 0x80 ||| ((n >>> 6) &&& 0x3F), 0x80 ||| (n &&& 0x3F)]
  else
    [0xF0 ||| (n >>> 18), 0x80 ||| ((n >>> 12) &&& 0x3F),
     0x80 ||| ((n >>> 6) &&& 0x3F), 0x80 ||| (n &&& 0x3F)]

/-- UTF-8 bytes of a string. -/
def utf8Bytes (s : String) : List Nat :=
  (s.data.map charUtf8).flatten

/-- Tightly packed `uint256`: 32 big-endian bytes of `n mod 2^256`. -/
def be256 (n : Nat) : List Nat :=
  (List.range 32).map fun i => (n >>> (8 * (31 - i))) &&& 255

/-- A typed value as passed to `web3.utils.soliditySha3`; the register flows
only use `string` and `uint256`. -/
inductive SolValue where
  | str (s : String)
  | uint256 (n : Nat)
deriving DecidableEq

/-- Tight (non-padded) Solidity ABI encoding of one typed value, as
`web3.utils.soliditySha3` packs its arguments. -/
def packValue : SolValue → List Nat
  | .str s => utf8Bytes s
  | .uint256 n => be256 n

/-- `web3.utils.soliditySha3`: keccak256 of the concatenated tight packing
of the typed arguments. -/
def soliditySha3 (vs : List SolValue) : List Nat :=
  keccak256 (vs.map packValue).flatten

/-! ## Product attributes and the two fingerprint derivations -/

/-- The resolved product attributes (after the register flows defaulted the
price and year). -/
structure ProductAttributes where
  name : String
  color : String
  material : String
  price : Nat
  year : Nat
deriving DecidableEq

/-- Fingerprint derivation of the admin register flow in
`src/unnamed/part_005` (lines 97–103): `soliditySha3` of exactly the five
attributes `name`, `color`, `material`, `price`, `year`, in this order. -/
def deriveAdmin (a : ProductAttributes) : List Nat :=
  soliditySha3
    [.str a.name, .str a.color, .str a.material,
     .uint256 a.price, .uint256 a.year]

/-- The same derivation, exposed with the wall-clock time at the moment of
the call as an explicit input: `part_005` has the clock available (`Date`)
but its hash input never mentions it, so the result ignores `now`. -/
def deriveAdminAt (a : ProductAttributes) (now : Nat) : List Nat :=
  deriveAdmin a

/-- Fingerprint derivation of the register flow in
`src/frontend/src/RegisterPanel.tsx` (lines 60–70): `soliditySha3` of the
five attributes plus a sixth `uint256`, the current Unix timestamp
`Math.floor(Date.now() / 1000)` ("Deterministic-ish productId based on
provided fields + timestamp"). -/
def deriveFrontendAt (a : ProductAttributes) (now : Nat) : List Nat :=
  soliditySha3
    [.str a.name, .str a.color, .str a.material,
     .uint256 a.price, .uint256 a.year, .uint256 now]

/-- Modelled from the spec: the canonical packed encoding of §4.1 — the
concatenation of the tightly-typed encodings of `name`, `color`,
`material` (text, UTF-8), `price`, `year` (unsigned 256-bit integers), in
that fixed order.  Used only to compare the code's derivation against the
spec's words. -/
def specPackedEncoding (a : ProductAttributes) : List Nat :=
  utf8Bytes a.name ++ utf8Bytes a.color ++ utf8Bytes a.material ++
    be256 a.price ++ be256 a.year

/-- A fixed concrete attribute record used by counterexamples (one of the
spec's own test vectors). -/
def attrsBagA : ProductAttributes :=
  { name := "Bag A", color := "Black", material := "Togo Leather",
    price := 1000, year := 2024 }

/-! ## String helpers shared by the embedded flows -/

/-- ASCII whitespace as stripped by JS `String.prototype.trim` on the
inputs occurring here. -/
def isWsChar (c : Char) : Bool :=
  c = ' ' || c = '\t' || c = '\n' || c = '\r'

/-- JS `s.trim()`: drop leading and trailing whitespace. -/
def trimS (s : String) : String :=
  ⟨((s.data.dropWhile isWsChar).reverse.dropWhile isWsChar).reverse⟩

/-- JS `s.toUpperCase()` on the ASCII codes used by short codes. -/
def upperS (s : String) : String :=
  ⟨s.data.map Char.toUpper⟩

/-- JS `parseInt(s, 10)` on the digit-only strings produced by the forms'
number inputs (and by the price digit-stripping). -/
def digitsToNat (s : String) : Nat :=
  s.data.foldl (fun acc c => acc * 10 + (c.toNat - 48)) 0

/-- JS `s.replace(/[^\d]/g, "")`: keep only decimal digits. -/
def digitsOnly (s : String) : String :=
  ⟨s.data.filter Char.isDigit⟩

/-! ## The two register flows -/

/-- The raw form state of a register panel (all fields are text inputs or
selects, hence strings). -/
structure RegForm where
  name : String
  price : String
  color : String
  material : String
  year : String
deriving DecidableEq

/-- `part_005` line 92–93: strip non-digits from the price field; empty
result means price 0 (`rawPrice ? parseInt(rawPrice, 10) : 0`;
`digitsToNat "" = 0` coincides with the explicit 0 branch). -/
def adminPrice (f : RegForm) : Nat :=
  digitsToNat (digitsOnly f.price)

/-- `part_005` line 94: `form.year ? parseInt(form.year, 10) :
new Date().getFullYear()` — an empty year field defaults to the current
calendar year, passed here as `currentYear`. -/
def adminYear (f : RegForm) (currentYear : Nat) : Nat :=
  if f.year = "" then currentYear else digitsToNat f.year

/-- The attributes the admin register flow (`part_005`, lines 82–94)
resolves from the form before hashing: name/color/material trimmed,
price digit-stripped, year defaulted to the current year. -/
def adminAttrs (f : RegForm) (currentYear : Nat) : ProductAttributes :=
  { name := trimS f.name, color := trimS f.color, material := trimS f.material,
    price := adminPrice f, year := adminYear f currentYear }

/-- The arguments of the `uploadProduct` transaction a register flow sends. -/
structure UploadCall where
  id : List Nat
  name : String
  color : String
  material : String
  price : Nat
  year : Nat
deriving DecidableEq

/-- The admin register flow of `src/unnamed/part_005` (lines 82–117):
resolve the attributes, derive the fingerprint with `soliditySha3` over
exactly those five attributes, and send `uploadProduct` with the same
values.  `currentYear` is the wall-clock calendar year at the call. -/
def adminRegisterTx (f : RegForm) (currentYear : Nat) : UploadCall :=
  let a := adminAttrs f currentYear
  { id := deriveAdmin a, name := a.name, color := a.color,
    material := a.material, price := a.price, year := a.year }

/-- The year value the register flow of
`src/frontend/src/RegisterPanel.tsx` uses: `form.year || "0"` in the hash
and `Number(form.year || 0)` in the transaction — an empty year field
becomes 0, never the current year. -/
def frontendYear (f : RegForm) : Nat :=
  if f.year = "" then 0 else digitsToNat f.year

/-- The register flow of `src/frontend/src/RegisterPanel.tsx` (lines
47–94): no trimming, price parsed as given, year defaulted to 0, and the
current Unix timestamp `now` mixed into the hash as a sixth `uint256`
(line 60, 69); the transaction itself carries only the five attributes. -/
def frontendRegisterTx (f : RegForm) (now : Nat) : UploadCall :=
  let a : ProductAttributes :=
    { name := f.name, color := f.color, material := f.material,
      price := digitsToNat f.price, year := frontendYear f }
  { id := deriveFrontendAt a now, name := a.name, color := a.color,
    material := a.material, price := a.price, year := a.year }

/-! ## The `FakeProdDetector` contract's storage
(`src/solidity/scripts/fund.js`, inlined Solidity source) -/

/-- The contract's `Product` struct. -/
structure Product where
  name : String
  color : String
  material : String
  price : Nat
  year : Nat
deriving DecidableEq

/-- Solidity's zero-initialized `Product`: the sentinel a mapping returns
for a key that was never written. -/
def emptyProduct : Product :=
  { name := "", color := "", material := "", price := 0, year := 0 }

/-- The `mapping(bytes32 => Product)` storage, embedded as the write log
with the newest write first; `bytes32` keys are 32-byte lists. -/
abbrev Ledger : Type := List (List Nat × Product)

/-- `uploadProduct(id, ...)`: `products[id] = Product(...)` — an
unconditional overwrite, never a rejection. -/
def uploadProduct (l : Ledger) (id : List Nat) (p : Product) : Ledger :=
  (id, p) :: l

/-- `getProduct(id)`: read `products[id]`, i.e. the newest write for `id`,
or the zero-initialized struct if none exists. -/
def getProduct (l : Ledger) (id : List Nat) : Product :=
  match l with
  | [] => emptyProduct
  | (k, p) :: t => if k = id then p else getProduct t id

/-- Run a sequence of `uploadProduct` calls (oldest first) against the
freshly deployed contract. -/
def applyUploads (ops : List (List Nat × Product)) : Ledger :=
  ops.foldl (fun l op => uploadProduct l op.1 op.2) []

/-- The attributes of the most recent `uploadProduct` call for `id` in a
call sequence (oldest first), if any. -/
def lastUpload (ops : List (List Nat × Product)) (id : List Nat) :
    Option Product :=
  (ops.reverse.find? (fun op => op.1 = id)).map (·.2)

/-! ## Contract-artifact resolution (the two `loadContract`s) -/

/-- First match in an association list (JS object lookup). -/
def lookupA {α β : Type} [DecidableEq α] : List (α × β) → α → Option β
  | [], _ => none
  | (k, v) :: t, a => if k = a then some v else lookupA t a

/-- A contract artifact as the loaders consume it: whether `artifact.abi`
is present (truthy), and the `networks` map from network id to deployment
address (a JS object; an absent `networks` is the empty map). -/
structure Artifact where
  abi : Bool
  networks : List (Nat × String)
deriving DecidableEq

/-- The address-resolution outcome of a loader: the chosen address, or the
`throw`n error message. -/
abbrev LoadResult : Type := Except String String

/-- `loadContract` of `src/unnamed/part_004` (lines 6–36): reject a
missing/abi-less artifact; then take the exact `networks[networkId]`
entry, “fallback to hardhat default if running locally” — i.e. the
`networks["31337"]` entry — otherwise, and throw only when both are
absent (an empty address string is falsy and also throws). -/
def loadContract04 (art : Artifact) (networkId : Nat) : LoadResult :=
  if !art.abi then .error "Invalid contract artifact from backend."
  else
    let address :=
      match lookupA art.networks networkId with
      | some a => some a
      | none => lookupA art.networks 31337
    match address with
    | some a =>
        if a = "" then
          .error ("No contract address found in artifact for network " ++
            toString networkId ++ ".")
        else .ok a
    | none =>
        .error ("No contract address found in artifact for network " ++
          toString networkId ++ ".")

/-- `loadContract` of `src/frontend/src/useContract.ts` (lines 4–17): a
plain exact lookup of the caller's chain id, throwing when absent or
falsy — no fallback of any kind. -/
def loadContractTs (art : Artifact) (netId : Nat) : LoadResult :=
  match lookupA art.networks netId with
  | some a =>
      if a = "" then
        .error ("Contract not deployed for network " ++ toString netId ++ ".")
      else .ok a
  | none =>
      .error ("Contract not deployed for network " ++ toString netId ++ ".")

/-! ## Frontend verification entry points -/

/-- A verdict as the backend returns it and the panels render it. -/
structure Verdict where
  status : String
  reason : String
deriving DecidableEq

/-- The `/verify` and `/customer-verify` response shape. -/
structure VerifyResponse where
  success : Bool
  product : Option Product
  verdict : Verdict
deriving DecidableEq

/-- The synthetic response `go` in `src/unnamed/part_006` (lines 44–52)
shows when the backend fetch throws. -/
def fakeNetworkResponse : VerifyResponse :=
  { success := false, product := none,
    verdict := { status := "fake",
                 reason := "network_or_server_error — unable to verify" } }

/-- The admin `VerifyPanel.go` handler of `src/unnamed/part_006` (lines
23–59), as a function of the entered product id and of the result of the
backend fetch: an all-whitespace id does nothing; a successful fetch shows
the backend's response; a thrown fetch is caught and shown as the
structured `fakeNetworkResponse` — never rethrown. -/
def goOutcome (pid : String) (fetchResult : Except String VerifyResponse) :
    Option VerifyResponse :=
  if trimS pid = "" then none
  else
    some (match fetchResult with
      | .ok d => d
      | .error _ => fakeNetworkResponse)

/-- What the customer `onVerify` handler does with a presented code. -/
inductive CustomerAction where
  | localError (msg : String)
  | request (productId : String) (shortCode : String)
deriving DecidableEq

/-- The `CustomerVerify.onVerify` handler of `src/unnamed/part_003` (lines
22–50): trim the entered code; if the trimmed length is not exactly 6,
set a local error and return — no request is issued; otherwise POST the
trimmed code to `/customer-verify`. -/
def onVerifyAction (productId code : String) : CustomerAction :=
  let trimmed := trimS code
  if trimmed.length ≠ 6 then
    .localError
      "Please enter the 6 characters printed on your Vérité Sauvage card."
  else
    .request productId trimmed

/-! ## The backend verification engine (modelled from the spec) -/

/-- The result of the Ledger Reader port: the read product, or a transient
read fault (network/node unavailable). -/
inductive ReadResult where
  | ok (p : Product)
  | fault
deriving DecidableEq

/-- A full verdict as the engine produces it: status, reason, and the
echoed attributes when authentic. -/
structure EngineVerdict where
  status : String
  reason : String
  product : Option Product
deriving DecidableEq

/-- Modelled from the spec: the backend Verification Engine of §4.4 (the
FastAPI backend is not part of the delivered sources; only its frontend
callers are).  Steps, in the spec's order: (1) normalize the presented
code (trim, uppercase); (2) registry entry absent → `fake` /
`no_registration`; (3) stored code ≠ presented → `fake` / `code_mismatch`;
(4) ledger read fault → `fake` / `verification_unavailable`; record
absent i.e. all-empty/zero sentinel → `fake` / `ledger_record_missing`;
(5) otherwise `authentic` / `on_chain_and_code_match` with the record's
attributes attached. -/
def verifyEngine (registry : List (List Nat × String))
    (readLedger : List Nat → ReadResult)
    (fp : List Nat) (presented : String) : EngineVerdict :=
  let code := upperS (trimS presented)
  match lookupA registry fp with
  | none => { status := "fake", reason := "no_registration", product := none }
  | some stored =>
      if stored ≠ code then
        { status := "fake", reason := "code_mismatch", product := none }
      else
        match readLedger fp with
        | .fault =>
            { status := "fake", reason := "verification_unavailable",
              product := none }
        | .ok p =>
            if p = emptyProduct then
              { status := "fake", reason := "ledger_record_missing",
                product := none }
            else
              { status := "authentic", reason := "on_chain_and_code_match",
                product := some p }

/-! ## The short-code registry (modelled from the spec) -/

/-- The registry's persistent state: the fingerprint → short-code map. -/
structure RegistryState where
  entries : List (List Nat × String)
deriving DecidableEq

/-- The short codes currently stored, across all fingerprints. -/
def storedCodes (st : RegistryState) : List String :=
  st.entries.map (·.2)

/-- A registration failure per §4.3/§7. -/
inductive RegistryErr where
  | alreadyRegistered
  | storageFailure
deriving DecidableEq

/-- Draw candidate codes `cand 0, cand 1, …` until one is not among the
stored codes (§4.3's collision retry), giving up when `fuel` candidates
were all collisions. -/
def mintCode (cand : Nat → String) (used : List String) :
    Nat → Nat → Option String
  | _, 0 => none
  | i, fuel + 1 =>
      if cand i ∈ used then mintCode cand used (i + 1) fuel
      else some (cand i)

/-- Modelled from the spec: `register(fingerprint)` of the Short-Code
Registry of §4.3 (the backend `codes.json` registry is not part of the
delivered sources).  Fails with `AlreadyRegistered` when the fingerprint
already holds a code; otherwise mints a code checked to be unique among
all currently stored codes before the atomic insert, surfacing a storage
failure when the candidate generator `cand` keeps colliding. -/
def registerCode (cand : Nat → String) (st : RegistryState)
    (fp : List Nat) : Except RegistryErr (String × RegistryState) :=
  if (lookupA st.entries fp).isSome then .error .alreadyRegistered
  else
    match mintCode cand (storedCodes st) 0 (st.entries.length + 1) with
    | none => .error .storageFailure
    | some c => .ok (c, ⟨(fp, c) :: st.entries⟩)

/-- Run a sequence of registrations against an initially empty registry,
keeping the prior state whenever a registration fails. -/
def runRegistrations (cand : Nat → String) (fps : List (List Nat)) :
    RegistryState :=
  fps.foldl
    (fun st fp =>
      match registerCode cand st fp with
      | .ok (_, st') => st'
      | .error _ => st)
    ⟨[]⟩

/-! ## Concrete fixtures used by witnesses and counterexamples -/

/-- The spec's own test-vector record. -/
def prodBagA : Product :=
  { name := "Bag A", color := "Black", material := "Togo Leather",
    price := 1000, year := 2024 }

/-- A second record for the same fingerprint, to exercise overwrites. -/
def prodBagB : Product :=
  { name := "Bag B", color := "White", material := "Ostrich",
    price := 2000, year := 2025 }

/-- A register form whose year field was left empty. -/
def formNoYear : RegForm :=
  { name := "Bag A", price := "1000", color := "Black",
    material := "Togo Leather", year := "" }

/-- An artifact deployed only on the local development network 31337. -/
def artLocalOnly : Artifact :=
  { abi := true, networks := [(31337, "0xDeployedLocal")] }

/-! ## Ledger storage lemmas -/

theorem foldl_uploadProduct (ops : List (List Nat × Product))
    (acc : Ledger) :
    ops.foldl (fun l op => uploadProduct l op.1 op.2) acc =
      ops.reverse ++ acc := by
  induction ops generalizing acc with
  | nil => simp
  | cons o t ih =>
      simp [List.foldl_cons, uploadProduct, ih, List.reverse_cons,
        List.append_assoc]

theorem applyUploads_eq_reverse (ops : List (List Nat × Product)) :
    applyUploads ops = ops.reverse := by
  simpa using foldl_uploadProduct ops []

theorem getProduct_eq_find (l : Ledger) (id : List Nat) :
    getProduct l id =
      (((l.find? fun op => op.1 = id).map (·.2)).getD emptyProduct) := by
  induction l with
  | nil => rfl
  | cons o t ih =>
      obtain ⟨k, p⟩ := o
      by_cases h : k = id
      · simp [getProduct, h, List.find?]
      · simp [getProduct, h, List.find?, ih]

theorem getProduct_applyUploads (ops : List (List Nat × Product))
    (id : List Nat) :
    getProduct (applyUploads ops) id =
      (lastUpload ops id).getD emptyProduct := by
  rw [applyUploads_eq_reverse, getProduct_eq_find, lastUpload]

/-- Claim C5: the ledger applies last-write-wins to repeated writes of the
same key — after any sequence of `uploadProduct` calls (none of which is
ever rejected: `uploadProduct` is a total, unconditional overwrite),
`getProduct id` returns exactly the attributes of the most recent
`uploadProduct` call for `id`. -/
theorem c5_ledger_last_write_wins (ops : List (List Nat × Product))
    (id : List Nat) (p : Product) (h : lastUpload ops id = some p) :
    getProduct (applyUploads ops) id = p := by
  rw [getProduct_applyUploads, h, Option.getD_some]

/-- Witness for C5: uploading twice under the same fingerprint, then
reading, yields the second record. -/
theorem c5_ledger_last_write_wins_witness :
    lastUpload [([1], prodBagA), ([1], prodBagB)] [1] = some prodBagB ∧
      getProduct (applyUploads [([1], prodBagA), ([1], prodBagB)]) [1] =
        prodBagB :=
  ⟨by decide,
   c5_ledger_last_write_wins [([1], prodBagA), ([1], prodBagB)] [1]
     prodBagB (by decide)⟩

/-- Claim C6: a fingerprint never written by `uploadProduct` reads back as
the all-empty/zero sentinel record, and verifying it (with a matching
short code, so that the engine reaches the ledger step) yields `fake` /
`ledger_record_missing`. -/
theorem c6_missing_record_sentinel_and_verdict
    (ops : List (List Nat × Product)) (fp : List Nat)
    (reg : List (List Nat × String)) (presented stored : String)
    (hreg : lookupA reg fp = some stored)
    (hcode : upperS (trimS presented) = stored)
    (hlast : lastUpload ops fp = none) :
    getProduct (applyUploads ops) fp = emptyProduct ∧
      verifyEngine reg (fun i => .ok (getProduct (applyUploads ops) i))
        fp presented =
        { status := "fake", reason := "ledger_record_missing",
          product := none } := by
  have hget : getProduct (applyUploads ops) fp = emptyProduct := by
    rw [getProduct_applyUploads, hlast, Option.getD_none]
  refine ⟨hget, ?_⟩
  simp [verifyEngine, hreg, hcode, hget]

/-- Witness for C6: fingerprint `[1]` is registered with code `VS2BOF` but
never uploaded; the read is the sentinel and the verdict is
`ledger_record_missing`. -/
theorem c6_missing_record_sentinel_and_verdict_witness :
    getProduct (applyUploads [([2], prodBagA)]) [1] = emptyProduct ∧
      verifyEngine [([1], "VS2BOF")]
        (fun i => .ok (getProduct (applyUploads [([2], prodBagA)]) i))
        [1] "vs2bof" =
        { status := "fake", reason := "ledger_record_missing",
          product := none } :=
  c6_missing_record_sentinel_and_verdict [([2], prodBagA)] [1]
    [([1], "VS2BOF")] "vs2bof" "VS2BOF" (by decide) (by decide) (by decide)

/-- Claim C7: short-code comparison during verification is case-insensitive
and whitespace-tolerant — a presented code whose trim-and-uppercase
normalization equals the stored code is never rejected as a mismatch,
whatever the ledger read then returns. -/
theorem c7_code_comparison_normalized
    (reg : List (List Nat × String)) (read : List Nat → ReadResult)
    (fp : List Nat) (stored presented : String)
    (hreg : lookupA reg fp = some stored)
    (hnorm : stored = upperS (trimS presented)) :
    (verifyEngine reg read fp presented).reason ≠ "code_mismatch" := by
  simp only [verifyEngine, hreg, hnorm]
  simp only [ne_eq, not_true_eq_false, if_false]
  cases read fp with
  | fault => simp
  | ok p =>
      by_cases hp : p = emptyProduct <;> simp [hp]

/-- Witness for C7: presented `" vs2bof"` (lower case, leading whitespace)
matches stored `"VS2BOF"`. -/
theorem c7_code_comparison_normalized_witness :
    (verifyEngine [([1], "VS2BOF")] (fun _ => .ok prodBagA)
        [1] " vs2bof").reason ≠ "code_mismatch" :=
  c7_code_comparison_normalized [([1], "VS2BOF")] (fun _ => .ok prodBagA)
    [1] "VS2BOF" " vs2bof" (by decide) (by decide)

/-- Claim C10: the customer verification entry point locally rejects every
presented code whose trimmed length is not exactly 6, without issuing a
verification request. -/
theorem c10_short_code_length_gate (productId code : String)
    (h : (trimS code).length ≠ 6) :
    onVerifyAction productId code =
      .localError
        "Please enter the 6 characters printed on your Vérité Sauvage card." := by
  simp [onVerifyAction, h]

/-- Witness for C10: a 3-character code is rejected locally. -/
theorem c10_short_code_length_gate_witness :
    onVerifyAction "0xdeadbeef" "ABC" =
      .localError
        "Please enter the 6 characters printed on your Vérité Sauvage card." :=
  c10_short_code_length_gate "0xdeadbeef" "ABC" (by decide)

/-- Counterexample to claim C4 as stated: when the backend fetch fails, the
admin verify handler produces a structured `fake` verdict, but its reason
code is `network_or_server_error — unable to verify`, not
`verification_unavailable`. -/
theorem c4_reason_not_verification_unavailable :
    goOutcome "0xabc" (.error "TypeError: Failed to fetch") =
        some fakeNetworkResponse ∧
      fakeNetworkResponse.verdict.status = "fake" ∧
      fakeNetworkResponse.verdict.reason ≠ "verification_unavailable" := by
  refine ⟨rfl, rfl, ?_⟩
  decide

/-- Claim C4 as amended: for every verify call whose backend fetch fails,
the caller receives a structured verdict with status `fake` and reason
`network_or_server_error — unable to verify` (the error is caught, never
rethrown). -/
theorem c4_fetch_failure_structured_verdict (pid e : String)
    (h : trimS pid ≠ "") :
    goOutcome pid (.error e) = some fakeNetworkResponse ∧
      fakeNetworkResponse.verdict.status = "fake" := by
  refine ⟨?_, rfl⟩
  simp [goOutcome, h]

/-- Witness for C4: a concrete failing fetch for a nonempty product id. -/
theorem c4_fetch_failure_structured_verdict_witness :
    goOutcome "0x12" (.error "ECONNREFUSED") = some fakeNetworkResponse ∧
      fakeNetworkResponse.verdict.status = "fake" :=
  c4_fetch_failure_structured_verdict "0x12" "ECONNREFUSED" (by decide)

/-- Counterexample to claim C3 as stated: an artifact holding only the
local development network 31337 resolves successfully for caller network
1 in `src/unnamed/part_004` — the loader silently falls back to the 31337
entry with no configuration gate, instead of failing. -/
theorem c3_silent_fallback_to_31337 :
    loadContract04 artLocalOnly 1 = .ok "0xDeployedLocal" := by
  rfl

/-- Claim C3 as amended: both loaders take the exact `networkId` entry when
it exists; when it does not, the loader of `src/unnamed/part_004`
unconditionally falls back to the `31337` entry when present and fails
only when neither entry exists, while the loader of
`src/frontend/src/useContract.ts` never falls back and fails whenever the
exact network id is absent. -/
theorem c3_resolution_policy :
    (∀ (art : Artifact) (n : Nat) (a : String), art.abi = true →
        lookupA art.networks n = some a → a ≠ "" →
        loadContract04 art n = .ok a) ∧
    (∀ (art : Artifact) (n : Nat) (a : String),
        lookupA art.networks n = some a → a ≠ "" →
        loadContractTs art n = .ok a) ∧
    (∀ (art : Artifact) (n : Nat) (a : String), art.abi = true →
        lookupA art.networks n = none →
        lookupA art.networks 31337 = some a → a ≠ "" →
        loadContract04 art n = .ok a) ∧
    (∀ (art : Artifact) (n : Nat), art.abi = true →
        lookupA art.networks n = none →
        lookupA art.networks 31337 = none →
        loadContract04 art n =
          .error ("No contract address found in artifact for network " ++
            toString n ++ ".")) ∧
    (∀ (art : Artifact) (n : Nat), lookupA art.networks n = none →
        loadContractTs art n =
          .error ("Contract not deployed for network " ++ toString n ++
            ".")) := by
  refine ⟨?_, ?_, ?_, ?_, ?_⟩
  · intro art n a habi hl hne
    simp [loadContract04, habi, hl, hne]
  · intro art n a hl hne
    simp [loadContractTs, hl, hne]
  · intro art n a habi hl hf hne
    simp [loadContract04, habi, hl, hf, hne]
  · intro art n habi hl hf
    simp [loadContract04, habi, hl, hf]
  · intro art n hl
    simp [loadContractTs, hl]

/-- Witness for C3: exact match on network 5 in both loaders, the 31337
fallback of the part_004 loader for network 1, failure for network 1 on
an artifact with no 31337 entry, and failure of the no-fallback loader
for a network it does not know. -/
theorem c3_resolution_policy_witness :
    loadContract04 { abi := true, networks := [(5, "0xGoerli")] } 5 =
        .ok "0xGoerli" ∧
      loadContractTs { abi := true, networks := [(5, "0xGoerli")] } 5 =
        .ok "0xGoerli" ∧
      loadContract04 artLocalOnly 7 = .ok "0xDeployedLocal" ∧
      loadContract04 { abi := true, networks := [(5, "0xGoerli")] } 1 =
        .error "No contract address found in artifact for network 1." ∧
      loadContractTs artLocalOnly 1 =
        .error "Contract not deployed for network 1." :=
  ⟨c3_resolution_policy.1 { abi := true, networks := [(5, "0xGoerli")] } 5
      "0xGoerli" rfl (by decide) (by decide),
   c3_resolution_policy.2.1 { abi := true, networks := [(5, "0xGoerli")] } 5
      "0xGoerli" (by decide) (by decide),
   c3_resolution_policy.2.2.1 artLocalOnly 7 "0xDeployedLocal" rfl
      (by decide) (by decide) (by decide),
   c3_resolution_policy.2.2.2.1 { abi := true, networks := [(5, "0xGoerli")] }
      1 rfl (by decide) (by decide),
   c3_resolution_policy.2.2.2.2 artLocalOnly 1 (by decide)⟩

/-- Counterexample to claim C1 as stated: the register flow in
`src/frontend/src/RegisterPanel.tsx` hashes the current Unix timestamp as
a sixth input, so two calls with identical attributes one second apart
derive different fingerprints. -/
theorem c1_frontend_fingerprint_time_dependent :
    deriveFrontendAt attrsBagA 1700000000 ≠
      deriveFrontendAt attrsBagA 1700000001 := by
  decide

/-- Claim C1 as amended: in the admin register flow of
`src/unnamed/part_005`, the derived fingerprint is a function of the five
product attributes alone — the wall-clock time at the moment of the call
never influences it. -/
theorem c1_admin_fingerprint_time_independent
    (a : ProductAttributes) (t₁ t₂ : Nat) :
    deriveAdminAt a t₁ = deriveAdminAt a t₂ := rfl

/-- Counterexample to claim C2 as stated: the fingerprint derived by
`src/frontend/src/RegisterPanel.tsx` is not the keccak256 digest of the
tightly packed five attributes — a sixth packed `uint256` (the timestamp)
enters the digest. -/
theorem c2_frontend_fingerprint_diverges_from_spec_encoding :
    deriveFrontendAt attrsBagA 1700000000 ≠
      keccak256 (specPackedEncoding attrsBagA) := by
  decide

/-- Claim C2 as amended: the fingerprint derived by the admin register flow
of `src/unnamed/part_005` is exactly the keccak256 digest of the tightly
packed encoding of the five attributes `name`, `color`, `material`,
`price`, `year`, concatenated in that fixed order. -/
theorem c2_admin_fingerprint_matches_spec_encoding (a : ProductAttributes) :
    deriveAdmin a = keccak256 (specPackedEncoding a) := by
  simp [deriveAdmin, soliditySha3, packValue, specPackedEncoding,
    List.append_assoc]

/-- Claim C8 as amended: when the year field is left empty, the admin
register flow of `src/unnamed/part_005` uses the current calendar year
both in the attributes fed to fingerprint derivation and in the
`uploadProduct` transaction. -/
theorem c8_admin_year_defaults_to_current (f : RegForm) (currentYear : Nat)
    (h : f.year = "") :
    (adminAttrs f currentYear).year = currentYear ∧
      (adminRegisterTx f currentYear).year = currentYear ∧
      (adminRegisterTx f currentYear).id =
        deriveAdmin (adminAttrs f currentYear) := by
  refine ⟨?_, ?_, rfl⟩ <;> simp [adminAttrs, adminRegisterTx, adminYear, h]

/-- Witness for C8: the empty-year form with current year 2025. -/
theorem c8_admin_year_defaults_to_current_witness :
    (adminAttrs formNoYear 2025).year = 2025 ∧
      (adminRegisterTx formNoYear 2025).year = 2025 ∧
      (adminRegisterTx formNoYear 2025).id =
        deriveAdmin (adminAttrs formNoYear 2025) :=
  c8_admin_year_defaults_to_current formNoYear 2025 rfl

/-- Counterexample to claim C8 as stated: the register flow of
`src/frontend/src/RegisterPanel.tsx` sends year 0 (not the current
calendar year) when the year field is empty — `Number(form.year || 0)` —
and 0 is no calendar year this code could run in. -/
theorem c8_frontend_year_defaults_to_zero :
    (frontendRegisterTx formNoYear 1700000000).year = 0 ∧
      frontendYear formNoYear ≠ 2026 := by
  exact ⟨rfl, by decide⟩

/-! ## Registry uniqueness lemmas -/

theorem mintCode_not_mem (cand : Nat → String) (used : List String) :
    ∀ (fuel i : Nat) (c : String),
      mintCode cand used i fuel = some c → c ∉ used := by
  intro fuel
  induction fuel with
  | zero => intro i c h; simp [mintCode] at h
  | succ n ih =>
      intro i c h
      by_cases hm : cand i ∈ used
      · exact ih (i + 1) c (by simpa [mintCode, hm] using h)
      · have hc : c = cand i := by
          simp [mintCode, hm] at h
          exact h.symm
        exact hc ▸ hm

theorem registerCode_ok_shape (cand : Nat → String) (st : RegistryState)
    (fp : List Nat) (c : String) (st' : RegistryState)
    (h : registerCode cand st fp = .ok (c, st')) :
    st'.entries = (fp, c) :: st.entries ∧ c ∉ storedCodes st := by
  unfold registerCode at h
  by_cases hl : (lookupA st.entries fp).isSome
  · simp [hl] at h
  · simp only [hl, Bool.false_eq_true, if_false] at h
    cases hm : mintCode cand (storedCodes st) 0 (st.entries.length + 1) with
    | none => rw [hm] at h; simp at h
    | some c0 =>
        rw [hm] at h
        simp only [Except.ok.injEq, Prod.mk.injEq] at h
        obtain ⟨hc, hst⟩ := h
        subst hc
        refine ⟨by rw [← hst], ?_⟩
        exact mintCode_not_mem cand (storedCodes st) _ 0 c0 hm

theorem runRegistrations_aux (cand : Nat → String)
    (fps : List (List Nat)) :
    ∀ st : RegistryState, (storedCodes st).Nodup →
      (storedCodes
        (fps.foldl
          (fun st fp =>
            match registerCode cand st fp with
            | .ok (_, st') => st'
            | .error _ => st)
          st)).Nodup := by
  induction fps with
  | nil => intro st hst; simpa using hst
  | cons fp fps ih =>
      intro st hst
      simp only [List.foldl_cons]
      apply ih
      cases hr : registerCode cand st fp with
      | error e => simpa [hr] using hst
      | ok p =>
          obtain ⟨c, st'⟩ := p
          simp only [hr]
          obtain ⟨hentries, hnot⟩ :=
            registerCode_ok_shape cand st fp c st' hr
          have hcodes : storedCodes st' = c :: storedCodes st := by
            simp [storedCodes, hentries]
          rw [hcodes, List.nodup_cons]
          exact ⟨hnot, hst⟩

/-- Claim C9: global short-code uniqueness is a registry-wide invariant —
after any sequence of registrations (for however many fingerprints,
distinct or not, and whatever candidate codes the generator draws), no
two entries of the registry hold the same short code. -/
theorem c9_global_code_uniqueness (cand : Nat → String)
    (fps : List (List Nat)) :
    (storedCodes (runRegistrations cand fps)).Nodup := by
  have h := runRegistrations_aux cand fps ⟨[]⟩ (by simp [storedCodes])
  simpa [runRegistrations] using h
